import Mathlib

/-!
Shallow embedding of the "20 questions" game server (src/server.js, the
complete timer-based variant at lines 300-949, referred to below by its
in-repo line numbers).  JavaScript state is modelled as follows:

* a JS `Map` / plain object keyed by socket id is an insertion-ordered
  association list `List (String × α)`;
* `null` / `undefined` string fields are `Option String`; JS truthiness of
  such a field is `jsTruthyStr` (both `null` and `""` are falsy);
* numbers are `Nat` (all counters in the source are non-negative: guess
  attempts are initialised to 2 and only decremented under a `<= 0` guard);
* `setTimeout` handles are modelled by what they guard: the single
  room-wide ask/answer timer is `turnTimer : Option TimerSlot`, the
  per-player guess timers are the set `guessTimers : List String`;
* every socket emission (unicast or broadcast) is an `Event`; handlers
  return the updated room state together with the list of emitted events,
  in emission order.  Event payloads keep the fields the verification
  needs (derived display-name fields are omitted).
-/

namespace TwentyQ

/-! ### JS string primitives (ASCII fragment used by the program) -/

/-- Whitespace for `String.prototype.trim` (the characters that occur in this code base). -/
def jsWhitespaceChar (c : Char) : Bool :=
  c == ' ' || c == '\t' || c == '\n' || c == '\r'

/-- Model of `String.prototype.trim`. -/
def jsTrim (s : String) : String :=
  ⟨((s.data.dropWhile jsWhitespaceChar).reverse.dropWhile jsWhitespaceChar).reverse⟩

/-- ASCII lowering of one character, the fragment of `toLowerCase` exercised here. -/
def jsLowerChar (c : Char) : Char :=
  if 65 ≤ c.toNat ∧ c.toNat ≤ 90 then Char.ofNat (c.toNat + 32) else c

/-- Model of `String.prototype.toLowerCase` on the ASCII letters used by the program. -/
def jsToLower (s : String) : String :=
  ⟨s.data.map jsLowerChar⟩

/-- JS `name || 'Anon'` (server.js 664, 679). -/
def jsNameOr (name : String) : String :=
  if name = "" then "Anon" else name

/-- JS truthiness of a nullable string: `null` and `""` are falsy. -/
def jsTruthyStr : Option String → Bool
  | none => false
  | some s => s != ""

/-! ### JS `Map` / object as insertion-ordered association list -/

/-- `m.get(k)` (`undefined` becomes `none`). -/
def mapGet {α : Type} (m : List (String × α)) (k : String) : Option α :=
  match m.find? (fun pr => pr.1 == k) with
  | some pr => some pr.2
  | none => none

/-- `m.set(k, v)` / `m[k] = v`: updates in place, else appends (JS `Map` keeps insertion order). -/
def mapSet {α : Type} (m : List (String × α)) (k : String) (v : α) : List (String × α) :=
  if m.any (fun pr => pr.1 == k) then
    m.map (fun pr => if pr.1 == k then (k, v) else pr)
  else m ++ [(k, v)]

/-- `m.delete(k)`. -/
def mapDelete {α : Type} (m : List (String × α)) (k : String) : List (String × α) :=
  m.filter (fun pr => pr.1 != k)

/-- `Array.prototype.indexOf`, with `-1` rendered as `none`. -/
def jsIndexOf (l : List String) (x : String) : Option Nat :=
  go l 0
where
  go : List String → Nat → Option Nat
    | [], _ => none
    | y :: ys, i => if y = x then some i else go ys (i + 1)

/-! ### Data model (server.js 336-356) -/

inductive Status where
  | waiting
  | playing
  | guessing
deriving DecidableEq, Repr

inductive Role where
  | thinker
  | guesser
deriving DecidableEq, Repr

structure PlayerRecord where
  name : String
  role : Role
  timeouts : Nat
deriving DecidableEq, Repr

structure Question where
  id : Nat
  qby : String        -- JS field name: `by`
  text : String
  answer : Option String
deriving DecidableEq, Repr

structure GuessRec where
  gby : String        -- JS field name: `by`
  text : String
  correct : Bool
deriving DecidableEq, Repr

/-- What the single room-wide `turnTimer` is currently guarding. -/
inductive TimerSlot where
  | ask (playerId : String)
  | answer (thinkerId : String) (questionId : Nat)
deriving DecidableEq, Repr

structure Room where
  code : String
  status : Status
  players : List (String × PlayerRecord)
  thinkerSocketId : Option String
  secretWord : Option String
  questions : List Question
  guesses : List GuessRec
  turnOrder : List String
  turnIdx : Nat
  maxQuestions : Nat
  asked : Nat
  guessAttempts : Option (List (String × Nat))
  logs : List String
  chat : List (String × String)
  turnTimer : Option TimerSlot
  lastQuestionId : Option Nat
  guessTimers : List String
deriving DecidableEq, Repr

/-- Socket emissions, in emission order.  Unicast targets are recorded where
the verification inspects them; derived display-name payload fields are omitted. -/
inductive Event where
  | roomState
  | roomsUpdate
  | logHistory
  | chatHistory
  | logMessage (message : String)
  | systemError (target : String) (message : String)
  | roundStarted (maxQuestions : Nat)
  | roundSecret (target : String) (secretWord : String)
  | turnNow (socketId : String)
  | questionNew (q : Question)
  | questionUpdate (q : Question)
  | counterUpdate (asked : Nat) (maxQuestions : Nat)
  | guessNew (sender : String) (text : String) (correct : Bool)
  | guessTimeoutMark (socketId : String) (remaining : Nat)
  | timerStart (target : String) (purpose : String)
  | roundEnded (message : String) (secretWord : Option String) (winnerId : Option String)
  | chatMessage (name : String) (text : String)
deriving DecidableEq, Repr

/-- `createRoom` (server.js 336-356). -/
def createRoom (code : String) : Room :=
  { code := code
    status := Status.waiting
    players := []
    thinkerSocketId := none
    secretWord := none
    questions := []
    guesses := []
    turnOrder := []
    turnIdx := 0
    maxQuestions := 20
    asked := 0
    guessAttempts := none
    logs := []
    chat := []
    turnTimer := none
    lastQuestionId := none
    guessTimers := [] }

/-- `room.players.get(id)?.name`, rendering JS `undefined` interpolation. -/
def playerName (room : Room) (id : String) : String :=
  match mapGet room.players id with
  | some p => p.name
  | none => "undefined"

/-- `pushLog` (server.js 368-371). -/
def pushLog (room : Room) (message : String) : Room × List Event :=
  ({ room with logs := room.logs ++ [message] }, [Event.logMessage message])

/-- The guess correctness test of `guess:submit` (server.js 834):
`room.secretWord && guess.toLowerCase() === room.secretWord.toLowerCase()`. -/
def jsGuessCorrect (secretWord : Option String) (guess : String) : Bool :=
  jsTruthyStr secretWord && (jsToLower guess == jsToLower (secretWord.getD ""))

/-! ### Timer helpers (server.js 374-421) -/

/-- `clearTurnTimer` (server.js 374-380). -/
def clearTurnTimer (room : Room) : Room :=
  { room with turnTimer := none }

/-- `startAskTimer` (server.js 381-389).  The JS writes `turnIdx` back only
when wrapping; writing the (identical) in-range value is equivalent. -/
def startAskTimer (room : Room) : Room × List Event :=
  let room := clearTurnTimer room
  if room.status ≠ Status.playing ∨ room.turnOrder.length = 0 then (room, [])
  else
    let idx := if room.turnIdx ≥ room.turnOrder.length then 0 else room.turnIdx
    let currentId := room.turnOrder.getD idx ""
    ({ room with turnIdx := idx, turnTimer := some (TimerSlot.ask currentId) },
     [Event.timerStart currentId "ask"])

/-- `startAnswerTimer` (server.js 390-397). -/
def startAnswerTimer (room : Room) (questionId : Nat) : Room × List Event :=
  let room := clearTurnTimer room
  if room.status ≠ Status.playing then (room, [])
  else
    match room.thinkerSocketId with
    | none => (room, [])
    | some thinkerId =>
        ({ room with turnTimer := some (TimerSlot.answer thinkerId questionId) },
         [Event.timerStart thinkerId "answer"])

/-- `clearGuessTimerFor` (server.js 400-406). -/
def clearGuessTimerFor (room : Room) (playerId : String) : Room :=
  { room with guessTimers := room.guessTimers.filter (fun id => id != playerId) }

/-- `clearGuessTimers` (server.js 407-414). -/
def clearGuessTimers (room : Room) : Room :=
  { room with guessTimers := [] }

/-- `startGuessTimer` (server.js 415-422). -/
def startGuessTimer (room : Room) (playerId : String) : Room × List Event :=
  let room := clearGuessTimerFor room playerId
  ({ room with guessTimers := room.guessTimers ++ [playerId] },
   [Event.timerStart playerId "guess"])

/-! ### Round end and thinker rotation (server.js 562-624) -/

/-- The `nextThinkerId` computation of `rotateThinker` (server.js 609-616),
including the in-branch `turnIdx` wrap (the wrapped index is only used here,
since `rotateThinker` finally resets `turnIdx` to 0). -/
def nextThinker (room : Room) : Option String :=
  if room.turnOrder.length > 0 then
    some (room.turnOrder.getD
      (if room.turnIdx ≥ room.turnOrder.length then 0 else room.turnIdx) "")
  else
    match room.players.find? (fun pr => !(some pr.1 == room.thinkerSocketId)) with
    | some pr => some pr.1
    | none => room.thinkerSocketId

/-- `rotateThinker` (server.js 607-624). -/
def rotateThinker (room : Room) : Room :=
  let next := nextThinker room
  let players := room.players.map (fun pr =>
    (pr.1, { pr.2 with role := if some pr.1 == next then Role.thinker else Role.guesser }))
  { room with
    players := players
    thinkerSocketId := next
    turnOrder := (players.map Prod.fst).filter (fun id => !(some id == next))
    turnIdx := 0 }

/-- `endRoundAndRotate` (server.js 582-605).  The `round:ended` payload keeps
message, revealed secret word and winner id (question/guess histories omitted). -/
def endRoundAndRotate (room : Room) (message : String) (winnerId : Option String) :
    Room × List Event :=
  let room := clearTurnTimer room
  let room := clearGuessTimers room
  let e1 := [Event.roundEnded message room.secretWord winnerId]
  let room := rotateThinker room
  let room := { room with
    status := Status.waiting, secretWord := none, questions := [], guesses := [],
    asked := 0, guessAttempts := none, lastQuestionId := none }
  let (room, e2) := pushLog room message
  (room, e1 ++ e2 ++ [Event.roomState, Event.roomsUpdate])

/-- Loop body of `startGuessPhase` (server.js 571-577). -/
def sgpStep (acc : Room × List Event) (pr : String × PlayerRecord) : Room × List Event :=
  if some pr.1 == acc.1.thinkerSocketId then acc
  else
    let room := { acc.1 with
      guessAttempts := some (mapSet (acc.1.guessAttempts.getD []) pr.1 2) }
    let (room, es) := startGuessTimer room pr.1
    (room, acc.2 ++ es)

/-- `startGuessPhase` (server.js 563-580). -/
def startGuessPhase (room : Room) : Room × List Event :=
  let room := { room with status := Status.guessing, guessAttempts := some [] }
  let room := clearTurnTimer room
  let room := clearGuessTimers room
  let (room, es) := room.players.foldl sgpStep (room, [])
  let (room, es2) := pushLog room "Domande finite! Ogni giocatore ha 2 tentativi per indovinare."
  (room, es ++ es2 ++ [Event.roomState])

/-! ### Timeout callbacks (server.js 423-560) -/

/-- `handleGuessTimeout` (server.js 423-449).  Attempt counts are naturals, so
the JS guard `<= 0` is `= 0`.  Note that it decrements only the attempt count:
no `timeouts` counter is touched anywhere in this function. -/
def handleGuessTimeout (room : Room) (playerId : String) : Room × List Event :=
  if room.status ≠ Status.guessing then (room, [])
  else
    match room.guessAttempts with
    | none => (room, [])
    | some ga =>
      match mapGet ga playerId with
      | none => (room, [])
      | some n =>
        if n = 0 then (clearGuessTimerFor room playerId, [])
        else
          let ga := mapSet ga playerId (n - 1)
          let room := { room with guessAttempts := some ga }
          let (room, e1) := pushLog room
            (playerName room playerId ++ " non ha fatto il tentativo in tempo")
          let e2 := [Event.guessTimeoutMark playerId (n - 1)]
          let room := clearGuessTimerFor room playerId
          let (room, e3) := if n - 1 > 0 then startGuessTimer room playerId else (room, [])
          if ga.all (fun pr => pr.2 = 0) then
            let (room, e4) := endRoundAndRotate room
              "Nessuno ha indovinato. Tentativi esauriti." room.thinkerSocketId
            (room, e1 ++ e2 ++ e3 ++ e4)
          else (room, e1 ++ e2 ++ e3)

/-- The repeated advance-to-next-player block (server.js 511-515, 552-556,
820-825, 883-888): advance `turnIdx`, announce the turn, re-arm the ask timer. -/
def advanceTurn (room : Room) : Room × List Event :=
  if room.turnOrder.length > 0 then
    let room := { room with turnIdx := (room.turnIdx + 1) % room.turnOrder.length }
    let nextId := room.turnOrder.getD room.turnIdx ""
    let (room, es) := startAskTimer room
    (room, [Event.turnNow nextId] ++ es)
  else (room, [])

/-- `handleAskTimeout` (server.js 452-519). -/
def handleAskTimeout (room : Room) (playerId : String) : Room × List Event :=
  if room.status ≠ Status.playing then (room, [])
  else if room.turnOrder.get? room.turnIdx ≠ some playerId then (room, [])
  else
    match mapGet room.players playerId with
    | none =>
        -- safety branch (server.js 459-470)
        let room := { room with turnOrder := room.turnOrder.filter (fun id => id != playerId) }
        let room := if room.turnIdx ≥ room.turnOrder.length then { room with turnIdx := 0 } else room
        if room.turnOrder.length > 0 then
          let nextId := room.turnOrder.getD room.turnIdx ""
          let (room, es) := startAskTimer room
          (room, [Event.turnNow nextId] ++ es)
        else (clearTurnTimer room, [])
    | some player =>
        let t := player.timeouts + 1
        let room := { room with players := mapSet room.players playerId { player with timeouts := t } }
        if t ≥ 3 then
          -- expulsion branch (server.js 476-497)
          let (room, e1) := pushLog room (player.name ++ " espulso per inattività.")
          let room := { room with players := mapDelete room.players playerId }
          let removedIdx := jsIndexOf room.turnOrder playerId
          let room := { room with turnOrder := room.turnOrder.filter (fun id => id != playerId) }
          let room := match removedIdx with
            | some i => if i < room.turnIdx then { room with turnIdx := room.turnIdx - 1 } else room
            | none => room
          if room.turnOrder.length = 0 then
            (clearTurnTimer room, e1 ++ [Event.roomState, Event.roomsUpdate])
          else
            let room := if room.turnIdx ≥ room.turnOrder.length then { room with turnIdx := 0 } else room
            let nextId := room.turnOrder.getD room.turnIdx ""
            let (room, e2) := startAskTimer room
            (room, e1 ++ [Event.turnNow nextId] ++ e2 ++ [Event.roomState, Event.roomsUpdate])
        else
          -- skipped turn (server.js 499-518)
          let room := { room with asked := room.asked + 1 }
          let (room, e1) := pushLog room (player.name ++ " non ha fatto la domanda in tempo.")
          let e2 := [Event.counterUpdate room.asked room.maxQuestions]
          if room.asked ≥ room.maxQuestions then
            let room := clearTurnTimer room
            let (room, e3) := startGuessPhase room
            (room, e1 ++ e2 ++ e3)
          else if room.turnOrder.length > 0 then
            let (room, e3) := advanceTurn room
            (room, e1 ++ e2 ++ e3)
          else (clearTurnTimer room, e1 ++ e2)

/-- Replace the answer of the first question with the given id, as the JS does
by mutating the object returned by `questions.find`. -/
def setAnswerFirst : List Question → Nat → String → List Question
  | [], _, _ => []
  | q :: qs, qid, ans =>
      if q.id == qid then { q with answer := some ans } :: qs
      else q :: setAnswerFirst qs qid ans

/-- `handleAnswerTimeout` (server.js 521-560).  Returns `none` when the room is
destroyed (thinker expelled at 3 timeouts, server.js 534-548). -/
def handleAnswerTimeout (room : Room) (thinkerId : String) (questionId : Nat) :
    Option Room × List Event :=
  if room.status ≠ Status.playing then (some room, [])
  else
    let (room, e1) :=
      match room.questions.find? (fun x => x.id == questionId) with
      | some q =>
          if jsTruthyStr q.answer then (room, ([] : List Event))
          else
            let room := { room with questions := setAnswerFirst room.questions questionId "Non so" }
            let (room, es) := pushLog room "Il Pensatore non ha risposto in tempo."
            (room, [Event.questionUpdate { q with answer := some "Non so" }] ++ es)
      | none => (room, [])
    match mapGet room.players thinkerId with
    | some thinker =>
        let t := thinker.timeouts + 1
        let room := { room with players := mapSet room.players thinkerId { thinker with timeouts := t } }
        if t ≥ 3 then
          let room := clearTurnTimer room
          let room := clearGuessTimers room
          (none, e1 ++ [Event.roundEnded
            "Il Pensatore è stato espulso per inattività. Round terminato."
            room.secretWord none, Event.roomsUpdate])
        else if room.turnOrder.length > 0 then
          let (room, e2) := advanceTurn room
          (some room, e1 ++ e2)
        else (some (clearTurnTimer room), e1)
    | none =>
        if room.turnOrder.length > 0 then
          let (room, e2) := advanceTurn room
          (some room, e1 ++ e2)
        else (some (clearTurnTimer room), e1)

/-- `handlePlayerExitDuringRound` (server.js 627-651). -/
def handlePlayerExitDuringRound (room : Room) (socketId : String) : Room × List Event :=
  let room := clearGuessTimerFor room socketId
  match jsIndexOf room.turnOrder socketId with
  | none => (room, [])
  | some idx =>
    let room := { room with turnOrder := room.turnOrder.eraseIdx idx }
    if room.status ≠ Status.playing then (room, [])
    else if room.turnOrder.length = 0 then (clearTurnTimer room, [])
    else
      -- `Math.max(0, turnIdx - 1)` is Nat subtraction
      let room := if idx < room.turnIdx then { room with turnIdx := room.turnIdx - 1 } else room
      if idx = room.turnIdx then
        let room := if room.turnIdx ≥ room.turnOrder.length then { room with turnIdx := 0 } else room
        let nextId := room.turnOrder.getD room.turnIdx ""
        let (room, es) := startAskTimer room
        (room, [Event.turnNow nextId] ++ es)
      else (room, [])

/-! ### Socket event handlers (server.js 654-944) -/

/-- `room:create` (server.js 658-673), the part creating and populating the new
room (the registry duplicate check and random-code generation are outside the
per-room state this development reasons about). -/
def roomCreateRoom (code : String) (senderId : String) (name : String) : Room × List Event :=
  let room := createRoom code
  let room := { room with
    players := mapSet room.players senderId
      { name := jsNameOr name, role := Role.thinker, timeouts := 0 }
    thinkerSocketId := some senderId }
  let (room, e1) := pushLog room (jsNameOr name ++ " ha creato la stanza ed è il Pensatore")
  (room, e1 ++ [Event.logHistory, Event.chatHistory, Event.roomState, Event.roomsUpdate])

/-- `room:join` (server.js 675-707). -/
def roomJoin (room : Room) (senderId : String) (name : String) : Room × List Event :=
  let newRec : PlayerRecord := { name := jsNameOr name, role := Role.guesser, timeouts := 0 }
  let room := { room with players := mapSet room.players senderId newRec }
  let e0 := [Event.logHistory, Event.chatHistory]
  let (room, e1) := pushLog room (jsNameOr name ++ " è entrato nella stanza")
  let e2 := [Event.roomState, Event.roomsUpdate]
  let (room, e3) :=
    if room.status = Status.playing ∧ ¬ (room.thinkerSocketId = some senderId)
        ∧ senderId ∉ room.turnOrder then
      let room := { room with turnOrder := room.turnOrder ++ [senderId] }
      let (room, es) := pushLog room (jsNameOr name ++ " si è unito in corsa")
      (room, es ++ [Event.roomState])
    else (room, [])
  let (room, e4) :=
    if room.status = Status.guessing ∧ ¬ (room.thinkerSocketId = some senderId) then
      let ga0 := room.guessAttempts.getD []
      let ga1 := if (mapGet ga0 senderId).isNone then mapSet ga0 senderId 2 else ga0
      let room := { room with guessAttempts := some ga1 }
      let (room, es1) := startGuessTimer room senderId
      let (room, es2) := pushLog room (jsNameOr name ++ " si è unito durante la fase di guessing")
      (room, es1 ++ es2 ++ [Event.roomState])
    else (room, [])
  (room, e0 ++ e1 ++ e2 ++ e3 ++ e4)

/-- `room:leave` (server.js 709-741).  Returns `none` when the room is deleted
(thinker left, or the room became empty). -/
def roomLeave (room : Room) (senderId : String) : Option Room × List Event :=
  let player := mapGet room.players senderId
  let room := { room with players := mapDelete room.players senderId }
  let (room, e0) := match player with
    | some p => pushLog room (p.name ++ " ha lasciato la stanza")
    | none => (room, ([] : List Event))
  if room.thinkerSocketId = some senderId then
    let room := clearTurnTimer room
    let room := clearGuessTimers room
    (none, e0 ++ [Event.roundEnded "Il Pensatore ha lasciato la stanza. Round terminato."
      room.secretWord none, Event.roomsUpdate])
  else
    let (room, e1) := handlePlayerExitDuringRound room senderId
    let e2 := [Event.roomState, Event.roomsUpdate]
    let room := clearGuessTimerFor room senderId
    if room.players.length = 0 then (none, e0 ++ e1 ++ e2)
    else (some room, e0 ++ e1 ++ e2)

/-- `round:start` (server.js 743-774).  Note the JS stores the trimmed word
into `room.secretWord` *before* rejecting the empty word. -/
def roundStart (room : Room) (senderId : String) (secretWord : String) : Room × List Event :=
  if ¬ (room.thinkerSocketId = some senderId) then (room, [])
  else
    let room := { room with secretWord := some (jsTrim secretWord) }
    if jsTrim secretWord = "" then
      (room, [Event.systemError senderId "Parola segreta vuota"])
    else
      let room := { room with
        status := Status.playing, questions := [], guesses := [], asked := 0,
        guessAttempts := none,
        turnOrder := (room.players.map Prod.fst).filter
          (fun id => !(some id == room.thinkerSocketId)),
        turnIdx := 0, lastQuestionId := none }
      let room := { room with
        players := room.players.map (fun pr => (pr.1, { pr.2 with timeouts := 0 })) }
      let e1 := [Event.roundStarted room.maxQuestions,
                 Event.roundSecret senderId (jsTrim secretWord)]
      let (room, e2) :=
        if room.turnOrder.length > 0 then
          let nextId := room.turnOrder.getD room.turnIdx ""
          let (room, es) := startAskTimer room
          (room, [Event.turnNow nextId] ++ es)
        else (room, [])
      let (room, e3) := pushLog room "Round iniziato!"
      (room, e1 ++ e2 ++ e3 ++ [Event.roomsUpdate, Event.roomState])

/-- Reset a player's consecutive-timeout counter on a valid action
(server.js 784-785, 806-807, 837-838). -/
def resetTimeouts (room : Room) (id : String) : Room :=
  match mapGet room.players id with
  | some p => { room with players := mapSet room.players id { p with timeouts := 0 } }
  | none => room

/-- `question:ask` (server.js 776-797). -/
def questionAsk (room : Room) (senderId : String) (text : String) : Room × List Event :=
  if room.status ≠ Status.playing then (room, [])
  else if room.turnOrder.get? room.turnIdx ≠ some senderId then
    (room, [Event.systemError senderId "Non è il tuo turno"])
  else if room.asked ≥ room.maxQuestions then
    (room, [Event.systemError senderId "Limite domande raggiunto"])
  else
    let room := resetTimeouts room senderId
    let room := clearTurnTimer room
    let q : Question :=
      { id := room.questions.length + 1, qby := senderId, text := jsTrim text, answer := none }
    let room := { room with questions := room.questions ++ [q], lastQuestionId := some q.id }
    let (room, es) := startAnswerTimer room q.id
    (room, [Event.questionNew q] ++ es)

/-- `question:answer` (server.js 799-828). -/
def questionAnswer (room : Room) (senderId : String) (qid : Nat) (answer : String) :
    Room × List Event :=
  if ¬ (room.thinkerSocketId = some senderId) then (room, [])
  else
    match room.questions.find? (fun x => x.id == qid) with
    | none => (room, [])
    | some q =>
      if jsTruthyStr q.answer then (room, [])
      else
        let room := resetTimeouts room senderId
        let room := clearTurnTimer room
        let room := { room with questions := setAnswerFirst room.questions qid answer }
        let e1 := [Event.questionUpdate { q with answer := some answer }]
        let (room, e2) :=
          if answer ≠ "Non so" then
            let room := { room with asked := room.asked + 1 }
            (room, [Event.counterUpdate room.asked room.maxQuestions])
          else (room, [])
        let (room, e3) := advanceTurn room
        let (room, e4) :=
          if room.asked ≥ room.maxQuestions ∧ room.status = Status.playing then
            startGuessPhase room
          else (room, [])
        (room, e1 ++ e2 ++ e3 ++ e4)

/-- `guess:submit` (server.js 830-890). -/
def guessSubmit (room : Room) (senderId : String) (text : String) : Room × List Event :=
  if room.status ≠ Status.playing ∧ room.status ≠ Status.guessing then (room, [])
  else
    let guess := jsTrim text
    let correct := jsGuessCorrect room.secretWord guess
    let room := resetTimeouts room senderId
    if room.status = Status.guessing ∧ room.guessAttempts.isSome then
      -- guessing phase: per-player attempts and timers (server.js 841-870)
      if room.thinkerSocketId = some senderId then (room, [])
      else
        let ga0 := room.guessAttempts.getD []
        let (room, ga1) :=
          match mapGet ga0 senderId with
          | none =>
              let ga := mapSet ga0 senderId 2
              ({ room with guessAttempts := some ga }, ga)
          | some _ => (room, ga0)
        let n := (mapGet ga1 senderId).getD 0
        if n = 0 then (room, [])
        else
          let room := clearGuessTimerFor room senderId
          let ga2 := mapSet ga1 senderId (n - 1)
          let room := { room with guessAttempts := some ga2 }
          let (room, e1) := pushLog room (playerName room senderId ++ " ha tentato")
          let e2 := [Event.guessNew senderId guess correct]
          if correct then
            let (room, e3) := endRoundAndRotate room
              (playerName room senderId ++ " ha indovinato!") (some senderId)
            (room, e1 ++ e2 ++ e3)
          else
            let (room, e3) := if n - 1 > 0 then startGuessTimer room senderId else (room, [])
            if ga2.all (fun pr => pr.2 = 0) then
              let (room, e4) := endRoundAndRotate room
                "Nessuno ha indovinato. Tentativi esauriti." room.thinkerSocketId
              (room, e1 ++ e2 ++ e3 ++ e4)
            else (room, e1 ++ e2 ++ e3)
    else
      -- playing-phase guess (server.js 872-889)
      let g : GuessRec := { gby := senderId, text := guess, correct := correct }
      let room := { room with guesses := room.guesses ++ [g] }
      let e1 := [Event.guessNew senderId guess correct]
      if correct then
        let (room, e2) := endRoundAndRotate room
          (playerName room senderId ++ " ha indovinato!") (some senderId)
        (room, e1 ++ e2)
      else
        let room := { room with asked := room.asked + 1 }
        let e2 := [Event.counterUpdate room.asked room.maxQuestions]
        if room.asked ≥ room.maxQuestions then
          let (room, e3) := startGuessPhase room
          (room, e1 ++ e2 ++ e3)
        else
          let (room, e3) := advanceTurn room
          (room, e1 ++ e2 ++ e3)

/-- The per-room body of the `disconnect` handler (server.js 901-942).
Returns `none` when the room is deleted (the thinker disconnected). -/
def disconnectRoom (room : Room) (senderId : String) : Option Room × List Event :=
  if (mapGet room.players senderId).isNone then (some room, [])
  else
    let player := mapGet room.players senderId
    let room := { room with players := mapDelete room.players senderId }
    let (room, e0) := match player with
      | some p => pushLog room (p.name ++ " si è disconnesso")
      | none => (room, ([] : List Event))
    let room := clearGuessTimerFor room senderId
    if room.thinkerSocketId = some senderId then
      let room := clearTurnTimer room
      let room := clearGuessTimers room
      (none, e0 ++ [Event.roundEnded "Il Pensatore ha lasciato la stanza. Round terminato."
        room.secretWord none])
    else
      let room := { room with turnOrder := room.turnOrder.filter (fun id => id != senderId) }
      let room := if room.turnIdx ≥ room.turnOrder.length then { room with turnIdx := 0 } else room
      if room.status = Status.playing then
        if room.turnOrder.length > 0 then
          let nextId := room.turnOrder.getD room.turnIdx ""
          let (room, es) := startAskTimer room
          (some room, e0 ++ [Event.roomState, Event.turnNow nextId] ++ es)
        else (some (clearTurnTimer room), e0 ++ [Event.roomState])
      else (some room, e0 ++ [Event.roomState])

/-- `chat:message` (server.js 893-899). -/
def chatMessage (room : Room) (name text : String) : Room × List Event :=
  ({ room with chat := room.chat ++ [(name, text)] }, [Event.chatMessage name text])

/-! ### Concrete scenario states, built by running the handlers from creation -/

/-- Room "ABCD" created by connection `ana` (display name Ana), the thinker. -/
def roomABCD : Room := (roomCreateRoom "ABCD" "ana" "Ana").1

/-- `bo` (Bo) joins. -/
def roomAB : Room := (roomJoin roomABCD "bo" "Bo").1

/-- `cy` (Cy) joins. -/
def roomABC : Room := (roomJoin roomAB "cy" "Cy").1

/-- `di` (Di) joins. -/
def roomABCD4 : Room := (roomJoin roomABC "di" "Di").1

/-- Two-player round in progress with secret word "gatto". -/
def playingRoom : Room := (roundStart roomAB "ana" "gatto").1

/-- Four-player round in progress, `turnOrder = [bo, cy, di]`. -/
def playingRoom4 : Room := (roundStart roomABCD4 "ana" "gatto").1

/-- Two-player round in progress with secret word "Elefante". -/
def elefRoom : Room := (roundStart roomAB "ana" "Elefante").1

/-- One full ask/answer exchange: `asker` asks a question, `ana` answers "Sì". -/
def askStep (r : Room) (asker : String) : Room :=
  let qid := r.questions.length + 1
  let r := (questionAsk r asker "domanda").1
  (questionAnswer r "ana" qid "Sì").1

/-- `playingRoom4` after `bo` and `cy` each asked and got an answer:
`turnOrder = [bo, cy, di]`, `turnIdx = 2` (Di's turn). -/
def c4Room : Room := askStep (askStep playingRoom4 "bo") "cy"

/-- `playingRoom` after the full 20-question budget: guessing phase,
`guessAttempts = [(bo, 2)]`. -/
def guessRoom : Room := (fun r => askStep r "bo")^[20] playingRoom

/-- Budget-overflow trace: 19 answered questions, then `bo` asks questions 20
and 21 back to back (both allowed: `asked = 19 < 20` and it is still his turn),
then `ana` answers both. -/
def c7Trace : Room :=
  let r := (fun r => askStep r "bo")^[19] playingRoom
  let r := (questionAsk r "bo" "domanda venti").1
  let r := (questionAsk r "bo" "domanda ventuno").1
  let r := (questionAnswer r "ana" 20 "Sì").1
  (questionAnswer r "ana" 21 "Sì").1

/-- `playingRoom` after `bo` asked question 1 (unanswered). -/
def c8Room : Room := (questionAsk playingRoom "bo" "è un animale").1

/-- `c8Room` after the thinker submitted the empty string as the answer:
question 1 now has `answer = some ""`, i.e. its answer field is set. -/
def c8SetRoom : Room := (questionAnswer c8Room "ana" 1 "").1

/-- `c8Room` after the thinker answered question 1 with "Sì". -/
def c8AnsweredRoom : Room := (questionAnswer c8Room "ana" 1 "Sì").1

/-- `guessRoom` after one incorrect guess by `bo` (one attempt left). -/
def c3Room : Room := (guessSubmit guessRoom "bo" "cane").1

/-! ### Stated invariants -/

/-- The invariant of claim C6: the current thinker's connection id is not an
element of `turnOrder`. -/
def thinkerNotInTurn (r : Room) : Prop :=
  ∀ id ∈ r.turnOrder, ¬ (r.thinkerSocketId = some id)

/-- The consecutive-timeouts counter of a player, `none` if the player record
is absent. -/
def timeoutsOf (r : Room) (id : String) : Option Nat :=
  (mapGet r.players id).map (fun p => p.timeouts)

/-- Whether an event list contains a `round:ended` broadcast whose winner
field is `none`. -/
def hasRoundEndedNoWinner (es : List Event) : Bool :=
  es.any (fun e => match e with
    | Event.roundEnded _ _ none => true
    | _ => false)

/-! ## Association-list lemmas -/

theorem mapGet_mapSet_self {α : Type} (m : List (String × α)) (k : String) (v : α) :
    mapGet (mapSet m k v) k = some v := by
  unfold mapSet
  split
  case isTrue h =>
    induction m with
    | nil => simp at h
    | cons hd tl ih =>
        by_cases hk : hd.1 == k
        · simp [mapGet, List.find?, hk]
        · simp only [List.any_cons, hk, Bool.false_or] at h
          simpa [mapGet, List.find?, hk] using ih h
  case isFalse h =>
    induction m with
    | nil => simp [mapGet, List.find?]
    | cons hd tl ih =>
        simp only [List.any_cons, Bool.or_eq_true, not_or] at h
        simpa [mapGet, List.find?, h.1] using ih h.2

theorem mapGet_mapDelete_self {α : Type} (m : List (String × α)) (k : String) :
    mapGet (mapDelete m k) k = none := by
  unfold mapDelete mapGet
  induction m with
  | nil => rfl
  | cons hd tl ih =>
      by_cases hk : hd.1 == k
      · simpa [List.filter_cons, bne, hk] using ih
      · simpa [List.filter_cons, bne, hk, List.find?, hk] using ih

theorem not_mem_filter_bne (l : List String) (x : String) :
    x ∉ l.filter (fun id => id != x) := by
  intro h
  have := List.of_mem_filter h
  simp at this

/-! ## Projection lemmas: which parts of the room each helper leaves alone -/

@[simp] theorem resetTimeouts_status (r : Room) (id : String) :
    (resetTimeouts r id).status = r.status := by
  unfold resetTimeouts; split <;> rfl

@[simp] theorem resetTimeouts_thinker (r : Room) (id : String) :
    (resetTimeouts r id).thinkerSocketId = r.thinkerSocketId := by
  unfold resetTimeouts; split <;> rfl

@[simp] theorem resetTimeouts_secretWord (r : Room) (id : String) :
    (resetTimeouts r id).secretWord = r.secretWord := by
  unfold resetTimeouts; split <;> rfl

@[simp] theorem resetTimeouts_turnOrder (r : Room) (id : String) :
    (resetTimeouts r id).turnOrder = r.turnOrder := by
  unfold resetTimeouts; split <;> rfl

@[simp] theorem resetTimeouts_turnIdx (r : Room) (id : String) :
    (resetTimeouts r id).turnIdx = r.turnIdx := by
  unfold resetTimeouts; split <;> rfl

@[simp] theorem resetTimeouts_guessAttempts (r : Room) (id : String) :
    (resetTimeouts r id).guessAttempts = r.guessAttempts := by
  unfold resetTimeouts; split <;> rfl

@[simp] theorem resetTimeouts_questions (r : Room) (id : String) :
    (resetTimeouts r id).questions = r.questions := by
  unfold resetTimeouts; split <;> rfl

@[simp] theorem resetTimeouts_asked (r : Room) (id : String) :
    (resetTimeouts r id).asked = r.asked := by
  unfold resetTimeouts; split <;> rfl

@[simp] theorem resetTimeouts_maxQuestions (r : Room) (id : String) :
    (resetTimeouts r id).maxQuestions = r.maxQuestions := by
  unfold resetTimeouts; split <;> rfl

@[simp] theorem resetTimeouts_guessTimers (r : Room) (id : String) :
    (resetTimeouts r id).guessTimers = r.guessTimers := by
  unfold resetTimeouts; split <;> rfl

@[simp] theorem startAskTimer_turnOrder (r : Room) :
    (startAskTimer r).1.turnOrder = r.turnOrder := by
  simp only [startAskTimer, clearTurnTimer]; split <;> rfl

@[simp] theorem startAskTimer_thinker (r : Room) :
    (startAskTimer r).1.thinkerSocketId = r.thinkerSocketId := by
  simp only [startAskTimer, clearTurnTimer]; split <;> rfl

@[simp] theorem startAskTimer_players (r : Room) :
    (startAskTimer r).1.players = r.players := by
  simp only [startAskTimer, clearTurnTimer]; split <;> rfl

@[simp] theorem startAskTimer_status (r : Room) :
    (startAskTimer r).1.status = r.status := by
  simp only [startAskTimer, clearTurnTimer]; split <;> rfl

@[simp] theorem startAskTimer_secretWord (r : Room) :
    (startAskTimer r).1.secretWord = r.secretWord := by
  simp only [startAskTimer, clearTurnTimer]; split <;> rfl

@[simp] theorem startAskTimer_guessAttempts (r : Room) :
    (startAskTimer r).1.guessAttempts = r.guessAttempts := by
  simp only [startAskTimer, clearTurnTimer]; split <;> rfl

@[simp] theorem startAskTimer_asked (r : Room) :
    (startAskTimer r).1.asked = r.asked := by
  simp only [startAskTimer, clearTurnTimer]; split <;> rfl

@[simp] theorem startAnswerTimer_turnOrder (r : Room) (qid : Nat) :
    (startAnswerTimer r qid).1.turnOrder = r.turnOrder := by
  simp only [startAnswerTimer, clearTurnTimer]
  split
  · rfl
  · split <;> rfl

@[simp] theorem startAnswerTimer_thinker (r : Room) (qid : Nat) :
    (startAnswerTimer r qid).1.thinkerSocketId = r.thinkerSocketId := by
  simp only [startAnswerTimer, clearTurnTimer]
  split
  · rfl
  · split <;> rfl

@[simp] theorem startAnswerTimer_players (r : Room) (qid : Nat) :
    (startAnswerTimer r qid).1.players = r.players := by
  simp only [startAnswerTimer, clearTurnTimer]
  split
  · rfl
  · split <;> rfl

@[simp] theorem startGuessTimer_turnOrder (r : Room) (id : String) :
    (startGuessTimer r id).1.turnOrder = r.turnOrder := rfl

@[simp] theorem startGuessTimer_thinker (r : Room) (id : String) :
    (startGuessTimer r id).1.thinkerSocketId = r.thinkerSocketId := rfl

@[simp] theorem startGuessTimer_players (r : Room) (id : String) :
    (startGuessTimer r id).1.players = r.players := rfl

@[simp] theorem startGuessTimer_guessAttempts (r : Room) (id : String) :
    (startGuessTimer r id).1.guessAttempts = r.guessAttempts := rfl

@[simp] theorem startGuessTimer_secretWord (r : Room) (id : String) :
    (startGuessTimer r id).1.secretWord = r.secretWord := rfl

@[simp] theorem startGuessTimer_status (r : Room) (id : String) :
    (startGuessTimer r id).1.status = r.status := rfl

@[simp] theorem advanceTurn_turnOrder (r : Room) :
    (advanceTurn r).1.turnOrder = r.turnOrder := by
  unfold advanceTurn; split <;> simp

@[simp] theorem advanceTurn_thinker (r : Room) :
    (advanceTurn r).1.thinkerSocketId = r.thinkerSocketId := by
  unfold advanceTurn; split <;> simp

@[simp] theorem advanceTurn_players (r : Room) :
    (advanceTurn r).1.players = r.players := by
  unfold advanceTurn; split <;> simp

@[simp] theorem advanceTurn_status (r : Room) :
    (advanceTurn r).1.status = r.status := by
  unfold advanceTurn; split <;> simp

@[simp] theorem advanceTurn_secretWord (r : Room) :
    (advanceTurn r).1.secretWord = r.secretWord := by
  unfold advanceTurn; split <;> simp

@[simp] theorem advanceTurn_guessAttempts (r : Room) :
    (advanceTurn r).1.guessAttempts = r.guessAttempts := by
  unfold advanceTurn; split <;> simp

@[simp] theorem advanceTurn_asked (r : Room) :
    (advanceTurn r).1.asked = r.asked := by
  unfold advanceTurn; split <;> simp

/-- The `startGuessPhase` loop touches only `guessAttempts`, `guessTimers`
and the event log. -/
theorem sgpFold_proj (l : List (String × PlayerRecord)) (acc : Room × List Event) :
    (l.foldl sgpStep acc).1.turnOrder = acc.1.turnOrder ∧
    (l.foldl sgpStep acc).1.thinkerSocketId = acc.1.thinkerSocketId ∧
    (l.foldl sgpStep acc).1.players = acc.1.players ∧
    (l.foldl sgpStep acc).1.status = acc.1.status := by
  induction l generalizing acc with
  | nil => exact ⟨rfl, rfl, rfl, rfl⟩
  | cons hd tl ih =>
      have hstep : (sgpStep acc hd).1.turnOrder = acc.1.turnOrder ∧
          (sgpStep acc hd).1.thinkerSocketId = acc.1.thinkerSocketId ∧
          (sgpStep acc hd).1.players = acc.1.players ∧
          (sgpStep acc hd).1.status = acc.1.status := by
        unfold sgpStep startGuessTimer clearGuessTimerFor
        split <;> exact ⟨rfl, rfl, rfl, rfl⟩
      have h := ih (sgpStep acc hd)
      rw [List.foldl_cons]
      exact ⟨h.1.trans hstep.1, h.2.1.trans hstep.2.1,
             h.2.2.1.trans hstep.2.2.1, h.2.2.2.trans hstep.2.2.2⟩

@[simp] theorem startGuessPhase_turnOrder (r : Room) :
    (startGuessPhase r).1.turnOrder = r.turnOrder := by
  unfold startGuessPhase pushLog
  exact (sgpFold_proj r.players _).1

@[simp] theorem startGuessPhase_thinker (r : Room) :
    (startGuessPhase r).1.thinkerSocketId = r.thinkerSocketId := by
  unfold startGuessPhase pushLog
  exact (sgpFold_proj r.players _).2.1

@[simp] theorem startGuessPhase_players (r : Room) :
    (startGuessPhase r).1.players = r.players := by
  unfold startGuessPhase pushLog
  exact (sgpFold_proj r.players _).2.2.1

/-! ## Invariant machinery -/

theorem thinkerNotInTurn_of (r r' : Room) (h : thinkerNotInTurn r)
    (hth : r'.thinkerSocketId = r.thinkerSocketId)
    (hto : ∀ id ∈ r'.turnOrder, id ∈ r.turnOrder) : thinkerNotInTurn r' := by
  intro id hid
  rw [hth]
  exact h id (hto id hid)

/-- `rotateThinker` re-establishes the invariant unconditionally: the new
`turnOrder` is rebuilt filtering out the new thinker. -/
theorem rotateThinker_inv (r : Room) : thinkerNotInTurn (rotateThinker r) := by
  intro id hid hcontra
  simp only [rotateThinker] at hid hcontra
  have hpred := List.of_mem_filter hid
  simp only [Bool.not_eq_true'] at hpred
  rw [beq_eq_false_iff_ne] at hpred
  exact hpred hcontra.symm

theorem endRoundAndRotate_inv (r : Room) (m : String) (w : Option String) :
    thinkerNotInTurn (endRoundAndRotate r m w).1 := by
  have h := rotateThinker_inv (clearGuessTimers (clearTurnTimer r))
  exact thinkerNotInTurn_of _ _ h rfl (fun id hid => hid)

theorem endRoundAndRotate_events (r : Room) (m : String) (w : Option String) :
    (endRoundAndRotate r m w).2 =
      [Event.roundEnded m r.secretWord w, Event.logMessage m,
       Event.roomState, Event.roomsUpdate] := rfl

theorem mapGet_map_timeouts (next : Option String) (l : List (String × PlayerRecord)) (k : String) :
    (mapGet (l.map (fun pr => (pr.1, { pr.2 with
        role := if some pr.1 == next then Role.thinker else Role.guesser }))) k).map
      (fun p => p.timeouts)
    = (mapGet l k).map (fun p => p.timeouts) := by
  induction l with
  | nil => rfl
  | cons hd tl ih =>
      by_cases h : hd.1 == k
      · simp [mapGet, List.find?, h]
      · simpa [mapGet, List.find?, h] using ih

theorem timeoutsOf_rotateThinker (r : Room) (id : String) :
    timeoutsOf (rotateThinker r) id = timeoutsOf r id :=
  mapGet_map_timeouts _ _ _

theorem timeoutsOf_endRound (r : Room) (m : String) (w : Option String) (id : String) :
    timeoutsOf (endRoundAndRotate r m w).1 id = timeoutsOf r id :=
  timeoutsOf_rotateThinker (clearGuessTimers (clearTurnTimer r)) id

/-! ## Claim theorems -/

set_option maxRecDepth 8192

/-- C1 (counterexample): in a concrete mid-round room ("gatto" round in
progress), the thinker's disconnection destroys the room at once — the
disconnect handler deletes the room (`none`) and immediately broadcasts
round termination revealing the secret word with no winner.  No 30-second
grace window begins and no rejoin can restore the Thinker role, contrary to
the claim that the room is not destroyed immediately. -/
theorem C1_counterexample :
    (disconnectRoom playingRoom "ana").1 = none ∧
    Event.roundEnded "Il Pensatore ha lasciato la stanza. Round terminato."
      (some "gatto") none ∈ (disconnectRoom playingRoom "ana").2 := by
  decide

/-- C2 (counterexample): the start-round handler is called by the Thinker with
a word of blanks while a "gatto" round is in progress.  The error is reported,
but `secretWord` is mutated from `some "gatto"` to `some ""` before the empty
check — contradicting "no field of the room state (including secretWord) is
mutated".  Moreover a non-Thinker caller receives no error at all (the event
list is empty), contradicting "an error is reported to the caller". -/
theorem C2_counterexample :
    playingRoom.secretWord = some "gatto" ∧
    (roundStart playingRoom "ana" "   ").1.secretWord = some "" ∧
    (roundStart playingRoom "ana" "   ").2 =
      [Event.systemError "ana" "Parola segreta vuota"] ∧
    roundStart playingRoom "bo" "x" = (playingRoom, []) := by
  decide

/-- C3 (counterexample): in the guessing phase with a single guesser `bo`
holding one remaining attempt, the final incorrect guess ends the round, but
the `round:ended` broadcast carries winner id `some "ana"` — the Thinker's
connection id — and no `round:ended` event with winner `none` is emitted,
contrary to the claim that the broadcast carries winner id = none. -/
theorem C3_counterexample :
    Event.roundEnded "Nessuno ha indovinato. Tentativi esauriti."
      (some "gatto") (some "ana") ∈ (guessSubmit c3Room "bo" "topo").2 ∧
    hasRoundEndedNoWinner (guessSubmit c3Room "bo" "topo").2 = false := by
  decide

/-- C4 (counterexample): `turnOrder = [bo, cy, di]` with `turnIdx = 2` (Di's
turn); `cy` — at index 1, which precedes `turnIdx` — disconnects.  The claim
requires `turnIdx` to be decremented to 1 so that it still points at Di, but
the disconnect handler never decrements: it only resets an out-of-range index
to 0, so the turn jumps to `bo` (index 0) instead of staying with Di. -/
theorem C4_counterexample :
    c4Room.status = Status.playing ∧
    c4Room.turnOrder = ["bo", "cy", "di"] ∧
    c4Room.turnIdx = 2 ∧
    (disconnectRoom c4Room "cy").1.map Room.turnOrder = some ["bo", "di"] ∧
    (disconnectRoom c4Room "cy").1.map Room.turnIdx = some 0 := by
  decide

/-- C5 (counterexample): a guess-timeout fires for `bo` (who has two attempts
and a consecutive-timeouts counter of 0).  The timeout is processed — the
attempt count drops from 2 to 1 — yet `bo`'s consecutive-timeouts counter
stays 0, contrary to the claim that every kind of timeout increments the
timed-out player's counter by 1. -/
theorem C5_counterexample :
    timeoutsOf guessRoom "bo" = some 0 ∧
    (handleGuessTimeout guessRoom "bo").1.guessAttempts = some [("bo", 1)] ∧
    timeoutsOf (handleGuessTimeout guessRoom "bo").1 "bo" = some 0 := by
  decide

/-- C7 (code bug): after 19 answered questions `bo` asks questions 20 and 21
back to back (both accepted: `asked = 19 < 20` and the turn has not advanced);
answering question 20 brings `asked` to 20 and moves the room to `guessing`,
but answering the still-pending question 21 — the handler checks neither the
status nor the budget — pushes `askedCount` to 21 > `maxQuestions` = 20,
violating the claimed invariant. -/
theorem C7_askedCount_exceeds_budget :
    c7Trace.asked = 21 ∧ c7Trace.maxQuestions = 20 ∧
    c7Trace.status = Status.guessing := by
  decide

/-- C8 (counterexample): the thinker first submits the empty string as the
answer to question 1, so its `answer` field is set (`some ""`).  A second
submission targeting that question is *not* rejected: the stored answer is
overwritten with "Sì", `asked` increments again, and broadcasts are emitted —
because the handler's guard `if (q.answer)` treats the empty string as unset. -/
theorem C8_counterexample :
    c8SetRoom.questions =
      [{ id := 1, qby := "bo", text := "è un animale", answer := some "" }] ∧
    (questionAnswer c8SetRoom "ana" 1 "Sì").1.questions =
      [{ id := 1, qby := "bo", text := "è un animale", answer := some "Sì" }] ∧
    c8SetRoom.asked = 1 ∧
    (questionAnswer c8SetRoom "ana" 1 "Sì").1.asked = 2 ∧
    (questionAnswer c8SetRoom "ana" 1 "Sì").2 ≠ [] := by
  decide

/-- C9: guess correctness is decided by case-insensitive exact match of the
trimmed guess against the secret word.  With secret word "Elefante", the
submitted guesses "elefante", "ELEFANTE" and a whitespace-padded
"  elefante  " are broadcast as correct, while "Elefant" is broadcast as
incorrect (and never as correct). -/
theorem C9_guess_case_insensitive :
    Event.guessNew "bo" "elefante" true ∈ (guessSubmit elefRoom "bo" "elefante").2 ∧
    Event.guessNew "bo" "ELEFANTE" true ∈ (guessSubmit elefRoom "bo" "ELEFANTE").2 ∧
    Event.guessNew "bo" "elefante" true ∈ (guessSubmit elefRoom "bo" "  elefante  ").2 ∧
    Event.guessNew "bo" "Elefant" false ∈ (guessSubmit elefRoom "bo" "Elefant").2 ∧
    Event.guessNew "bo" "Elefant" true ∉ (guessSubmit elefRoom "bo" "Elefant").2 ∧
    Event.guessNew "bo" "elefante" false ∉ (guessSubmit elefRoom "bo" "elefante").2 := by
  decide

/-- C8 (amended): an answer submission targeting a question whose answer field
is already set to a non-empty string is rejected: the room state is returned
unchanged and no event is emitted.  (A stored empty-string answer, however, is
treated as unanswered and may be overwritten — see the counterexample.) -/
theorem C8_answered_question_rejected (r : Room) (sid : String) (qid : Nat)
    (ans : String) (q : Question)
    (hth : r.thinkerSocketId = some sid)
    (hq : r.questions.find? (fun x => x.id == qid) = some q)
    (hset : jsTruthyStr q.answer = true) :
    questionAnswer r sid qid ans = (r, []) := by
  unfold questionAnswer
  rw [if_neg (not_not_intro hth), hq]
  simp [hset]

/-- Witness for C8: the thinker answered question 1 with "Sì"; a second
submission "No" against the same question is a no-op. -/
theorem C8_witness :
    questionAnswer c8AnsweredRoom "ana" 1 "No" = (c8AnsweredRoom, []) :=
  C8_answered_question_rejected c8AnsweredRoom "ana" 1 "No"
    { id := 1, qby := "bo", text := "è un animale", answer := some "Sì" }
    (by decide) (by decide) (by decide)

/-- C2 (amended): a start-round request from a non-Thinker is ignored
silently — no mutation and no error event; a start-round request from the
Thinker whose word trims to the empty string reports the error to the caller
only and mutates exactly one field: `secretWord`, which is overwritten with
the empty string before the check. -/
theorem C2_roundStart_validation (room : Room) (senderId word : String) :
    (¬ (room.thinkerSocketId = some senderId) →
      roundStart room senderId word = (room, [])) ∧
    (room.thinkerSocketId = some senderId → jsTrim word = "" →
      roundStart room senderId word =
        ({ room with secretWord := some "" },
         [Event.systemError senderId "Parola segreta vuota"])) := by
  constructor
  · intro h
    unfold roundStart
    rw [if_pos h]
  · intro h he
    unfold roundStart
    rw [if_neg (not_not_intro h), he]
    simp

/-- Witness for C2: the non-thinker `bo` is ignored; the thinker with a blank
word gets the error and only `secretWord` changes. -/
theorem C2_witness :
    roundStart playingRoom "bo" "x" = (playingRoom, []) ∧
    roundStart playingRoom "ana" " " =
      ({ playingRoom with secretWord := some "" },
       [Event.systemError "ana" "Parola segreta vuota"]) :=
  ⟨(C2_roundStart_validation playingRoom "bo" "x").1 (by decide),
   (C2_roundStart_validation playingRoom "ana" " ").2 (by decide) (by decide)⟩

/-- C1 (amended): whenever the Thinker's connection disconnects while its room
still holds their player record, the room is destroyed immediately: the
disconnect handler deletes the room (returns `none`) and broadcasts
`round:ended` with the secret word revealed and no winner.  There is no grace
window; a later join under the same display name finds the room gone. -/
theorem C1_thinker_disconnect_destroys_room (room : Room) (tid : String) (p : PlayerRecord)
    (hp : mapGet room.players tid = some p)
    (hth : room.thinkerSocketId = some tid) :
    (disconnectRoom room tid).1 = none ∧
    Event.roundEnded "Il Pensatore ha lasciato la stanza. Round terminato."
      room.secretWord none ∈ (disconnectRoom room tid).2 := by
  unfold disconnectRoom
  rw [hp]
  simp [pushLog, clearGuessTimerFor, clearGuessTimers, clearTurnTimer, hth]

/-- Witness for C1: the thinker `ana` disconnects from the in-progress
"gatto" round; the room is gone. -/
theorem C1_witness :
    (disconnectRoom playingRoom "ana").1 = none ∧
    Event.roundEnded "Il Pensatore ha lasciato la stanza. Round terminato."
      playingRoom.secretWord none ∈ (disconnectRoom playingRoom "ana").2 :=
  C1_thinker_disconnect_destroys_room playingRoom "ana"
    { name := "Ana", role := Role.thinker, timeouts := 0 } (by decide) (by decide)

/-- A mapping with an entry holding a non-zero value is not all-zero. -/
theorem all_zero_false_of_mapGet (m : List (String × Nat)) (k : String) (v : Nat)
    (h : mapGet m k = some v) (hv : v ≠ 0) :
    m.all (fun pr => pr.2 = 0) = false := by
  induction m with
  | nil => simp [mapGet, List.find?] at h
  | cons hd tl ih =>
      by_cases hk : hd.1 == k
      · simp [mapGet, List.find?, hk] at h
        simp [List.all_cons, h, hv]
      · simp only [mapGet, List.find?, hk] at h ih
        rw [List.all_cons, ih h, Bool.and_false]

/-- C10: in the guessing phase, a guess by a non-Thinker sender whose id is
absent from `guessAttempts` lazily initialises that sender's attempt count to
2 before consuming the attempt: the guess is accepted — its broadcast is
emitted with the computed correctness — and when the guess is incorrect the
sender is left with exactly 1 attempt. -/
theorem C10_lazy_attempts_init (r : Room) (sid text : String)
    (ga : List (String × Nat))
    (hst : r.status = Status.guessing)
    (hga : r.guessAttempts = some ga)
    (habs : mapGet ga sid = none)
    (hth : ¬ (r.thinkerSocketId = some sid)) :
    Event.guessNew sid (jsTrim text) (jsGuessCorrect r.secretWord (jsTrim text))
      ∈ (guessSubmit r sid text).2 ∧
    (jsGuessCorrect r.secretWord (jsTrim text) = false →
      mapGet ((guessSubmit r sid text).1.guessAttempts.getD []) sid = some 1) := by
  have h2 : mapGet (mapSet ga sid 2) sid = some 2 := mapGet_mapSet_self ga sid 2
  have h1 : mapGet (mapSet (mapSet ga sid 2) sid 1) sid = some 1 := mapGet_mapSet_self _ sid 1
  have hall : (mapSet (mapSet ga sid 2) sid 1).all (fun pr => pr.2 = 0) = false :=
    all_zero_false_of_mapGet _ sid 1 h1 (by decide)
  unfold guessSubmit
  rw [if_neg (by simp [hst])]
  simp only [resetTimeouts_status, resetTimeouts_guessAttempts, resetTimeouts_thinker,
    resetTimeouts_secretWord, hst, hga, Option.getD_some, Option.isSome_some, and_true,
    eq_self_iff_true, if_true, habs, if_neg hth, h2, h1, hall, pushLog, clearGuessTimerFor,
    startGuessTimer, endRoundAndRotate_events]
  constructor
  · by_cases hc : jsGuessCorrect r.secretWord (jsTrim text) = true <;>
      simp [hc, endRoundAndRotate_events, hall, h1]
  · intro hcf
    simp [hcf, hall, h1, startGuessTimer, clearGuessTimerFor]

/-- Witness for C10: `zed`, absent from `guessAttempts` of the concrete
guessing-phase room, submits a wrong guess; it is accepted and leaves 1
attempt. -/
theorem C10_witness :
    Event.guessNew "zed" (jsTrim "cane") (jsGuessCorrect guessRoom.secretWord (jsTrim "cane"))
      ∈ (guessSubmit guessRoom "zed" "cane").2 ∧
    (jsGuessCorrect guessRoom.secretWord (jsTrim "cane") = false →
      mapGet ((guessSubmit guessRoom "zed" "cane").1.guessAttempts.getD []) "zed" = some 1) :=
  C10_lazy_attempts_init guessRoom "zed" "cane" [("bo", 2)]
    (by decide) (by decide) (by decide) (by decide)

/-- C3 (amended): in the guessing phase, when the last remaining attempt is
consumed — by an incorrect guess or by a guess timeout — and every eligible
player's attempt count is then 0 with no correct guess, the round ends, and
the `round:ended` broadcast carries winner id = the Thinker's connection id
(the code passes `room.thinkerSocketId`, not `null`, as the winner). -/
theorem C3_all_out_thinker_wins :
    (∀ (r : Room) (sid text : String) (ga : List (String × Nat)) (n : Nat),
      r.status = Status.guessing → r.guessAttempts = some ga →
      ¬ (r.thinkerSocketId = some sid) → mapGet ga sid = some n → n ≠ 0 →
      jsGuessCorrect r.secretWord (jsTrim text) = false →
      (mapSet ga sid (n - 1)).all (fun pr => pr.2 = 0) = true →
      Event.roundEnded "Nessuno ha indovinato. Tentativi esauriti."
        r.secretWord r.thinkerSocketId ∈ (guessSubmit r sid text).2) ∧
    (∀ (r : Room) (pid : String) (ga : List (String × Nat)) (n : Nat),
      r.status = Status.guessing → r.guessAttempts = some ga →
      mapGet ga pid = some n → n ≠ 0 →
      (mapSet ga pid (n - 1)).all (fun pr => pr.2 = 0) = true →
      Event.roundEnded "Nessuno ha indovinato. Tentativi esauriti."
        r.secretWord r.thinkerSocketId ∈ (handleGuessTimeout r pid).2) := by
  constructor
  · intro r sid text ga n hst hga hth hmem hn hcf hall
    unfold guessSubmit
    rw [if_neg (by simp [hst])]
    simp only [resetTimeouts_status, resetTimeouts_guessAttempts, resetTimeouts_thinker,
      resetTimeouts_secretWord, hst, hga, Option.getD_some, Option.isSome_some, and_true,
      eq_self_iff_true, if_true, if_neg hth, hmem, hcf, hall, pushLog,
      clearGuessTimerFor, startGuessTimer, endRoundAndRotate_events]
    by_cases h1n : 1 < n <;> simp [hn, hcf, hall, h1n, endRoundAndRotate_events]
  · intro r pid ga n hst hga hmem hn hall
    unfold handleGuessTimeout
    rw [if_neg (by simp [hst])]
    simp only [hga, hmem, hall, pushLog, clearGuessTimerFor, startGuessTimer,
      endRoundAndRotate_events]
    by_cases h1n : 1 < n <;> simp [hn, hall, h1n, endRoundAndRotate_events]

/-- `handleGuessTimeout` never touches any player's consecutive-timeouts
counter: it only changes `guessAttempts`, logs and timers (or ends the round,
which also preserves the counters). -/
theorem guessTimeout_counters_unchanged (r : Room) (pid id : String) :
    timeoutsOf (handleGuessTimeout r pid).1 id = timeoutsOf r id := by
  unfold handleGuessTimeout
  by_cases h1 : r.status ≠ Status.guessing
  · rw [if_pos h1]
  · rw [if_neg h1]
    cases hga : r.guessAttempts with
    | none => rfl
    | some ga =>
      dsimp only
      cases hm : mapGet ga pid with
      | none => rfl
      | some n =>
        dsimp only
        by_cases hn : n = 0
        · rw [if_pos hn]
          rfl
        · rw [if_neg hn]
          by_cases h1n : n - 1 > 0
          · rw [if_pos h1n]
            dsimp only [pushLog, clearGuessTimerFor, startGuessTimer]
            by_cases hall : ((mapSet ga pid (n - 1)).all fun pr => decide (pr.2 = 0)) = true
            · rw [if_pos hall]
              dsimp only [endRoundAndRotate, pushLog, clearTurnTimer, clearGuessTimers,
                rotateThinker, timeoutsOf]
              exact mapGet_map_timeouts _ _ _
            · rw [if_neg hall]
              rfl
          · rw [if_neg h1n]
            dsimp only [pushLog, clearGuessTimerFor]
            by_cases hall : ((mapSet ga pid (n - 1)).all fun pr => decide (pr.2 = 0)) = true
            · rw [if_pos hall]
              dsimp only [endRoundAndRotate, pushLog, clearTurnTimer, clearGuessTimers,
                rotateThinker, timeoutsOf]
              exact mapGet_map_timeouts _ _ _
            · rw [if_neg hall]
              rfl

/-- `handleAskTimeout` increments the current player's counter; at 3 the
player is expelled from `players` and `turnOrder` before the handler returns. -/
theorem askTimeout_counter (r : Room) (pid : String) (p : PlayerRecord)
    (hst : r.status = Status.playing)
    (hto : r.turnOrder.get? r.turnIdx = some pid)
    (hp : mapGet r.players pid = some p) :
    (p.timeouts + 1 < 3 →
      timeoutsOf (handleAskTimeout r pid).1 pid = some (p.timeouts + 1)) ∧
    (p.timeouts + 1 ≥ 3 →
      mapGet (handleAskTimeout r pid).1.players pid = none ∧
      pid ∉ (handleAskTimeout r pid).1.turnOrder) := by
  unfold handleAskTimeout
  rw [if_neg (not_not_intro hst), if_neg (not_not_intro hto), hp]
  dsimp only
  constructor
  · intro hlt
    rw [if_neg (by omega)]
    dsimp only [pushLog]
    split
    · simp only [timeoutsOf, startGuessPhase_players, clearTurnTimer, mapGet_mapSet_self,
        Option.map_some']
    · split <;>
        simp only [timeoutsOf, advanceTurn_players, clearTurnTimer, mapGet_mapSet_self,
          Option.map_some']
  · intro hge
    rw [if_pos hge]
    dsimp only [pushLog]
    refine ⟨?_, ?_⟩ <;>
      (repeat' split) <;>
        simp [mapGet_mapDelete_self, not_mem_filter_bne, timeoutsOf, clearTurnTimer]

/-- `handleAnswerTimeout` increments the thinker's counter; at 3 the room is
destroyed. -/
theorem answerTimeout_counter (r : Room) (tid : String) (qid : Nat) (p : PlayerRecord)
    (hst : r.status = Status.playing)
    (hp : mapGet r.players tid = some p) :
    (p.timeouts + 1 ≥ 3 → (handleAnswerTimeout r tid qid).1 = none) ∧
    (p.timeouts + 1 < 3 → ∀ r', (handleAnswerTimeout r tid qid).1 = some r' →
      timeoutsOf r' tid = some (p.timeouts + 1)) := by
  unfold handleAnswerTimeout
  rw [if_neg (not_not_intro hst)]
  dsimp only [pushLog]
  rcases hfind : r.questions.find? (fun x => x.id == qid) with _ | q
  · rw [hfind]
    dsimp only
    rw [hp]
    dsimp only
    constructor
    · intro hge
      rw [if_pos hge]
    · intro hlt r' hr'
      rw [if_neg (by omega)] at hr'
      split at hr'
      · dsimp only at hr'
        cases hr'
        simp only [timeoutsOf, advanceTurn_players, mapGet_mapSet_self, Option.map_some']
      · dsimp only [clearTurnTimer] at hr'
        cases hr'
        simp only [timeoutsOf, clearTurnTimer, mapGet_mapSet_self, Option.map_some']
  · rw [hfind]
    dsimp only
    by_cases hans : jsTruthyStr q.answer = true
    · rw [if_pos hans]
      dsimp only
      rw [hp]
      dsimp only
      constructor
      · intro hge
        rw [if_pos hge]
      · intro hlt r' hr'
        rw [if_neg (by omega)] at hr'
        split at hr'
        · dsimp only at hr'
          cases hr'
          simp only [timeoutsOf, advanceTurn_players, mapGet_mapSet_self, Option.map_some']
        · dsimp only [clearTurnTimer] at hr'
          cases hr'
          simp only [timeoutsOf, clearTurnTimer, mapGet_mapSet_self, Option.map_some']
    · rw [if_neg hans]
      dsimp only
      rw [hp]
      dsimp only
      constructor
      · intro hge
        rw [if_pos hge]
      · intro hlt r' hr'
        rw [if_neg (by omega)] at hr'
        split at hr'
        · dsimp only at hr'
          cases hr'
          simp only [timeoutsOf, advanceTurn_players, mapGet_mapSet_self, Option.map_some']
        · dsimp only [clearTurnTimer] at hr'
          cases hr'
          simp only [timeoutsOf, clearTurnTimer, mapGet_mapSet_self, Option.map_some']

/-- Witness for C3: `bo`, holding the last remaining attempt, guesses wrong;
the broadcast winner is the thinker `ana`. -/
theorem C3_witness :
    Event.roundEnded "Nessuno ha indovinato. Tentativi esauriti."
      c3Room.secretWord c3Room.thinkerSocketId ∈ (guessSubmit c3Room "bo" "topo").2 :=
  C3_all_out_thinker_wins.1 c3Room "bo" "topo" [("bo", 1)] 1
    (by decide) (by decide) (by decide) (by decide) (by decide) (by decide) (by decide)

/-- `startAskTimer` leaves an in-range `turnIdx` unchanged. -/
theorem startAskTimer_turnIdx_of_lt (r : Room) (h : r.turnIdx < r.turnOrder.length) :
    (startAskTimer r).1.turnIdx = r.turnIdx := by
  simp only [startAskTimer, clearTurnTimer]
  split
  · rfl
  · dsimp only
    rw [if_neg (by omega)]

/-- Leave path: removing a `turnOrder` index that precedes `turnIdx`
decrements `turnIdx` so it still points at the same logical player. -/
theorem playerExit_before_turnIdx (r : Room) (sid : String) (idx : Nat)
    (hst : r.status = Status.playing)
    (hidx : jsIndexOf r.turnOrder sid = some idx)
    (hlt : idx < r.turnIdx)
    (hti : r.turnIdx < r.turnOrder.length) :
    (handlePlayerExitDuringRound r sid).1.turnOrder = r.turnOrder.eraseIdx idx ∧
    (handlePlayerExitDuringRound r sid).1.turnIdx = r.turnIdx - 1 := by
  have hlen : (r.turnOrder.eraseIdx idx).length ≠ 0 := by
    have := List.length_eraseIdx_add_one (l := r.turnOrder) (i := idx) (by omega)
    omega
  unfold handlePlayerExitDuringRound
  dsimp only [clearGuessTimerFor]
  rw [hidx]
  dsimp only
  rw [if_neg (by simp [hst]), if_neg hlen, if_pos hlt]
  dsimp only
  by_cases heq : idx = r.turnIdx - 1
  · rw [if_pos heq]
    have hlen2 : r.turnIdx - 1 < (r.turnOrder.eraseIdx idx).length := by
      have := List.length_eraseIdx_add_one (l := r.turnOrder) (i := idx) (by omega)
      omega
    rw [if_neg (by omega)]
    dsimp only
    constructor
    · rw [startAskTimer_turnOrder]
    · rw [startAskTimer_turnIdx_of_lt]
      exact hlen2
  · rw [if_neg heq]
    exact ⟨rfl, rfl⟩

/-- Leave path: removing the index at `turnIdx` passes the turn to the new
occupant of that index, wrapping to 0, with a fresh ask timer armed. -/
theorem playerExit_at_turnIdx (r : Room) (sid : String)
    (hst : r.status = Status.playing)
    (hidx : jsIndexOf r.turnOrder sid = some r.turnIdx)
    (hlen : (r.turnOrder.eraseIdx r.turnIdx).length ≠ 0) :
    (handlePlayerExitDuringRound r sid).1.turnOrder = r.turnOrder.eraseIdx r.turnIdx ∧
    (handlePlayerExitDuringRound r sid).1.turnIdx =
      (if r.turnIdx ≥ (r.turnOrder.eraseIdx r.turnIdx).length then 0 else r.turnIdx) ∧
    (handlePlayerExitDuringRound r sid).1.turnTimer =
      some (TimerSlot.ask ((r.turnOrder.eraseIdx r.turnIdx).getD
        (if r.turnIdx ≥ (r.turnOrder.eraseIdx r.turnIdx).length then 0 else r.turnIdx) "")) ∧
    Event.turnNow ((r.turnOrder.eraseIdx r.turnIdx).getD
        (if r.turnIdx ≥ (r.turnOrder.eraseIdx r.turnIdx).length then 0 else r.turnIdx) "")
      ∈ (handlePlayerExitDuringRound r sid).2 := by
  unfold handlePlayerExitDuringRound
  dsimp only [clearGuessTimerFor]
  rw [hidx]
  dsimp only
  rw [if_neg (by simp [hst]), if_neg hlen, if_neg (lt_irrefl r.turnIdx), if_pos rfl]
  by_cases hw : r.turnIdx ≥ (r.turnOrder.eraseIdx r.turnIdx).length
  · rw [if_pos hw]
    dsimp only [startAskTimer, clearTurnTimer]
    rw [if_neg (by simp [hst, hlen])]
    dsimp only
    rw [if_neg (by omega)]
    simp [hw]
  · rw [if_neg hw]
    dsimp only [startAskTimer, clearTurnTimer]
    rw [if_neg (by simp [hst, hlen])]
    dsimp only
    rw [if_neg (by omega)]
    simp [hw]

/-- Expulsion path: removing the current player from `turnOrder` at the
expulsion threshold passes the turn to the occupant of `turnIdx` (wrapping)
with a fresh ask timer. -/
theorem askTimeout_expel_turn (r : Room) (pid : String) (p : PlayerRecord)
    (hst : r.status = Status.playing)
    (hto : r.turnOrder.get? r.turnIdx = some pid)
    (hfirst : jsIndexOf r.turnOrder pid = some r.turnIdx)
    (hp : mapGet r.players pid = some p)
    (hp3 : p.timeouts + 1 ≥ 3)
    (hlen : (r.turnOrder.filter (fun id => id != pid)).length ≠ 0) :
    (handleAskTimeout r pid).1.turnOrder = r.turnOrder.filter (fun id => id != pid) ∧
    (handleAskTimeout r pid).1.turnIdx =
      (if r.turnIdx ≥ (r.turnOrder.filter (fun id => id != pid)).length then 0
       else r.turnIdx) ∧
    (handleAskTimeout r pid).1.turnTimer =
      some (TimerSlot.ask ((r.turnOrder.filter (fun id => id != pid)).getD
        (if r.turnIdx ≥ (r.turnOrder.filter (fun id => id != pid)).length then 0
         else r.turnIdx) "")) := by
  unfold handleAskTimeout
  rw [if_neg (not_not_intro hst), if_neg (not_not_intro hto), hp]
  dsimp only
  rw [if_pos hp3]
  dsimp only [pushLog]
  rw [hfirst]
  dsimp only
  rw [if_neg (lt_irrefl r.turnIdx), if_neg hlen]
  by_cases hw : r.turnIdx ≥ (r.turnOrder.filter (fun id => id != pid)).length
  · rw [if_pos hw]
    dsimp only [startAskTimer, clearTurnTimer]
    rw [if_neg (by simp [hst, hlen])]
    dsimp only
    rw [if_neg (by omega)]
    simp [hw]
  · rw [if_neg hw]
    dsimp only [startAskTimer, clearTurnTimer]
    rw [if_neg (by simp [hst, hlen])]
    dsimp only
    rw [if_neg (by omega)]
    simp [hw]

/-- Disconnect path: the id is removed from `turnOrder` but `turnIdx` is only
reset to 0 when out of range — never decremented. -/
theorem disconnect_no_decrement (r : Room) (sid : String) (p : PlayerRecord)
    (hp : mapGet r.players sid = some p)
    (hth : ¬ (r.thinkerSocketId = some sid)) :
    ∀ r', (disconnectRoom r sid).1 = some r' →
      r'.turnOrder = r.turnOrder.filter (fun id => id != sid) ∧
      r'.turnIdx = (if r.turnIdx ≥ (r.turnOrder.filter (fun id => id != sid)).length
        then 0 else r.turnIdx) := by
  intro r' hr'
  unfold disconnectRoom at hr'
  rw [hp] at hr'
  simp only [Option.isNone_some, Bool.false_eq_true, if_false] at hr'
  dsimp only [pushLog, clearGuessTimerFor] at hr'
  rw [if_neg hth] at hr'
  by_cases hw : r.turnIdx ≥ (r.turnOrder.filter (fun id => id != sid)).length <;>
    [rw [if_pos hw] at hr'; rw [if_neg hw] at hr'] <;>
  by_cases hs : r.status = Status.playing <;>
    [skip; skip; skip; skip] <;>
  first
    | (rw [if_neg hs] at hr'
       cases hr'
       simp [hw])
    | (rw [if_pos hs] at hr'
       by_cases hl : (r.turnOrder.filter (fun id => id != sid)).length > 0
       · rw [if_pos hl] at hr'
         dsimp only [startAskTimer, clearTurnTimer] at hr'
         have hguard : ¬(r.status ≠ Status.playing ∨
             (List.filter (fun id => id != sid) r.turnOrder).length = 0) := by
           rw [not_or]
           exact ⟨by simp [hs], by omega⟩
         rw [if_neg hguard] at hr'
         cases hr'
         simp [hw]
       · rw [if_neg hl] at hr'
         cases hr'
         simp [hw, clearTurnTimer])

/-- C5 (amended): ask- and answer-timeouts increment the timed-out player's
consecutive-timeouts counter by 1; when the incremented counter reaches 3, an
ask-timeout removes the player from `players` and `turnOrder` before the
handler returns, and an answer-timeout (the Thinker timed out) destroys the
room itself.  Guess-timeouts, however, never touch any player's counter: they
only decrement the player's remaining attempt count. -/
theorem C5_timeout_counter :
    (∀ (r : Room) (pid : String) (p : PlayerRecord),
      r.status = Status.playing → r.turnOrder.get? r.turnIdx = some pid →
      mapGet r.players pid = some p →
      (p.timeouts + 1 < 3 →
        timeoutsOf (handleAskTimeout r pid).1 pid = some (p.timeouts + 1)) ∧
      (p.timeouts + 1 ≥ 3 →
        mapGet (handleAskTimeout r pid).1.players pid = none ∧
        pid ∉ (handleAskTimeout r pid).1.turnOrder)) ∧
    (∀ (r : Room) (tid : String) (qid : Nat) (p : PlayerRecord),
      r.status = Status.playing → mapGet r.players tid = some p →
      (p.timeouts + 1 ≥ 3 → (handleAnswerTimeout r tid qid).1 = none) ∧
      (p.timeouts + 1 < 3 → ∀ r', (handleAnswerTimeout r tid qid).1 = some r' →
        timeoutsOf r' tid = some (p.timeouts + 1))) ∧
    (∀ (r : Room) (pid id : String),
      timeoutsOf (handleGuessTimeout r pid).1 id = timeoutsOf r id) :=
  ⟨askTimeout_counter, answerTimeout_counter, guessTimeout_counters_unchanged⟩

/-- Witness for C5: an ask-timeout for `bo` (counter 0) leaves him with
counter 1; a guess-timeout in the guessing-phase room leaves every counter
unchanged. -/
theorem C5_witness :
    timeoutsOf (handleAskTimeout playingRoom "bo").1 "bo" = some 1 ∧
    timeoutsOf (handleGuessTimeout guessRoom "bo").1 "bo" = timeoutsOf guessRoom "bo" :=
  ⟨(C5_timeout_counter.1 playingRoom "bo" { name := "Bo", role := Role.guesser, timeouts := 0 }
      (by decide) (by decide) (by decide)).1 (by decide),
   C5_timeout_counter.2.2 guessRoom "bo" "bo"⟩


/-! ## Preservation of the thinker-not-in-turnOrder invariant, per handler -/

theorem inv_roomCreateRoom (code sid name : String) :
    thinkerNotInTurn (roomCreateRoom code sid name).1 := by
  intro id hid
  exact absurd hid (List.not_mem_nil id)

theorem inv_roundStart (r : Room) (sid w : String) (h : thinkerNotInTurn r) :
    thinkerNotInTurn (roundStart r sid w).1 := by
  unfold roundStart
  split
  · exact h
  · split
    · exact thinkerNotInTurn_of r _ h rfl (fun id hid => hid)
    · dsimp only [pushLog]
      split
      · intro id hid
        simp only [startAskTimer_turnOrder, startAskTimer_thinker] at hid ⊢
        have := List.of_mem_filter hid
        simp only [Bool.not_eq_true'] at this
        rw [beq_eq_false_iff_ne] at this
        intro hcontra
        exact this hcontra.symm
      · intro id hid
        have := List.of_mem_filter hid
        simp only [Bool.not_eq_true'] at this
        rw [beq_eq_false_iff_ne] at this
        intro hcontra
        exact this hcontra.symm

theorem inv_questionAsk (r : Room) (sid t : String) (h : thinkerNotInTurn r) :
    thinkerNotInTurn (questionAsk r sid t).1 := by
  unfold questionAsk
  split
  · exact h
  · split
    · exact h
    · split
      · exact h
      · dsimp only
        refine thinkerNotInTurn_of r _ h ?_ (fun id hid => ?_)
        · simp [clearTurnTimer]
        · simpa [clearTurnTimer] using hid

theorem inv_roomJoin (r : Room) (sid name : String) (h : thinkerNotInTurn r) :
    thinkerNotInTurn (roomJoin r sid name).1 := by
  unfold roomJoin
  dsimp only [pushLog]
  split
  next hcond =>
    split
    · -- playing branch taken, then guessing branch also (impossible but provable anyway)
      intro id hid
      simp only [startGuessTimer_turnOrder, startGuessTimer_thinker] at hid ⊢
      rcases List.mem_append.1 hid with hmem | hmem
      · exact h id hmem
      · simp only [List.mem_singleton] at hmem
        subst hmem
        exact hcond.2.1
    · intro id hid
      rcases List.mem_append.1 hid with hmem | hmem
      · exact h id hmem
      · simp only [List.mem_singleton] at hmem
        subst hmem
        exact hcond.2.1
  · split
    · intro id hid
      simp only [startGuessTimer_turnOrder, startGuessTimer_thinker] at hid ⊢
      exact h id hid
    · exact h

theorem inv_questionAnswer (r : Room) (sid : String) (qid : Nat) (ans : String)
    (h : thinkerNotInTurn r) :
    thinkerNotInTurn (questionAnswer r sid qid ans).1 := by
  unfold questionAnswer
  split
  · exact h
  · split
    · exact h
    · split
      · exact h
      · dsimp only
        split <;> split <;>
          (refine thinkerNotInTurn_of r _ h ?_ (fun id hid => ?_) <;>
            first
              | simp [clearTurnTimer]
              | simpa [clearTurnTimer] using hid)

theorem inv_playerExit (r : Room) (sid : String) (h : thinkerNotInTurn r) :
    thinkerNotInTurn (handlePlayerExitDuringRound r sid).1 := by
  unfold handlePlayerExitDuringRound
  dsimp only [clearGuessTimerFor]
  rcases hidx : jsIndexOf r.turnOrder sid with _ | idx <;> dsimp only
  · exact h
  · split
    · refine thinkerNotInTurn_of r _ h rfl (fun id hid => ?_)
      exact List.eraseIdx_subset _ _ hid
    · split
      · refine thinkerNotInTurn_of r _ h rfl (fun id hid => ?_)
        simp only [clearTurnTimer] at hid
        exact List.eraseIdx_subset _ _ hid
      · split <;> split <;>
          (refine thinkerNotInTurn_of r _ h ?_ (fun id hid => ?_) <;>
            first
              | simp [clearTurnTimer, apply_ite Room.thinkerSocketId, ite_self]
              | (simp only [startAskTimer_turnOrder, clearTurnTimer,
                   apply_ite Room.turnOrder, ite_self] at hid;
                 exact List.eraseIdx_subset _ _ hid))

theorem inv_leave_step (r : Room) (sid : String) (h : thinkerNotInTurn r) (rm : Room)
    (hto : rm.turnOrder = r.turnOrder) (hth : rm.thinkerSocketId = r.thinkerSocketId) :
    thinkerNotInTurn (clearGuessTimerFor (handlePlayerExitDuringRound rm sid).1 sid) := by
  refine thinkerNotInTurn_of _ _ (inv_playerExit rm sid ?_) rfl (fun id hid => hid)
  exact thinkerNotInTurn_of _ _ h hth (fun id hid => hto ▸ hid)

theorem inv_roomLeave (r : Room) (sid : String) (h : thinkerNotInTurn r) :
    ∀ r', (roomLeave r sid).1 = some r' → thinkerNotInTurn r' := by
  intro r' hr'
  unfold roomLeave at hr'
  dsimp only [pushLog] at hr'
  rcases hpl : mapGet r.players sid with _ | p <;> rw [hpl] at hr' <;> dsimp only at hr' <;>
  · split at hr'
    · cases hr'
    · split at hr'
      · cases hr'
      · cases hr'
        exact inv_leave_step r sid h _ rfl rfl

theorem inv_disconnectRoom (r : Room) (sid : String) (h : thinkerNotInTurn r) :
    ∀ r', (disconnectRoom r sid).1 = some r' → thinkerNotInTurn r' := by
  intro r' hr'
  unfold disconnectRoom at hr'
  split at hr'
  · cases hr'
    exact h
  · dsimp only [pushLog, clearGuessTimerFor] at hr'
    rcases hpl : mapGet r.players sid with _ | p <;> rw [hpl] at hr' <;> dsimp only at hr' <;>
    · split at hr'
      · cases hr'
      · by_cases hw : r.turnIdx ≥ (r.turnOrder.filter (fun id => id != sid)).length <;>
          [rw [if_pos hw] at hr'; rw [if_neg hw] at hr'] <;>
        · split at hr'
          · split at hr'
            · dsimp only at hr'
              cases hr'
              refine thinkerNotInTurn_of r _ h ?_ (fun id hid => ?_)
              · simp
              · simp only [startAskTimer_turnOrder] at hid
                exact List.mem_of_mem_filter hid
            · cases hr'
              refine thinkerNotInTurn_of r _ h ?_ (fun id hid => ?_)
              · simp [clearTurnTimer]
              · simp only [clearTurnTimer] at hid
                exact List.mem_of_mem_filter hid
          · cases hr'
            refine thinkerNotInTurn_of r _ h ?_ (fun id hid => ?_)
            · simp
            · exact List.mem_of_mem_filter hid

theorem inv_handleGuessTimeout (r : Room) (pid : String) (h : thinkerNotInTurn r) :
    thinkerNotInTurn (handleGuessTimeout r pid).1 := by
  unfold handleGuessTimeout
  by_cases h1 : r.status ≠ Status.guessing
  · rw [if_pos h1]
    exact h
  · rw [if_neg h1]
    cases hga : r.guessAttempts with
    | none => exact h
    | some ga =>
      dsimp only
      cases hm : mapGet ga pid with
      | none => exact h
      | some n =>
        dsimp only
        by_cases hn : n = 0
        · rw [if_pos hn]
          exact thinkerNotInTurn_of r _ h rfl (fun id hid => hid)
        · rw [if_neg hn]
          by_cases h1n : n - 1 > 0 <;>
            [rw [if_pos h1n]; rw [if_neg h1n]] <;>
          · dsimp only [pushLog, clearGuessTimerFor, startGuessTimer]
            by_cases hall : ((mapSet ga pid (n - 1)).all fun pr => decide (pr.2 = 0)) = true
            · rw [if_pos hall]
              dsimp only
              exact endRoundAndRotate_inv _ _ _
            · rw [if_neg hall]
              exact thinkerNotInTurn_of r _ h rfl (fun id hid => hid)

theorem inv_handleAskTimeout (r : Room) (pid : String) (h : thinkerNotInTurn r) :
    thinkerNotInTurn (handleAskTimeout r pid).1 := by
  unfold handleAskTimeout
  split
  · exact h
  · split
    · exact h
    · rcases hmg : mapGet r.players pid with _ | p <;> dsimp only
      · -- safety branch: filter + wrap + maybe timer
        by_cases hw : r.turnIdx ≥ (r.turnOrder.filter (fun id => id != pid)).length <;>
          [rw [if_pos hw]; rw [if_neg hw]] <;>
        · split <;>
            (refine thinkerNotInTurn_of r _ h ?_ (fun id hid => ?_) <;>
              first
                | simp [clearTurnTimer]
                | (simp only [startAskTimer_turnOrder, clearTurnTimer] at hid
                   exact List.mem_of_mem_filter hid))
      · split
        · -- expulsion branch
          dsimp only [pushLog]
          rcases hri : jsIndexOf r.turnOrder pid with _ | i <;> dsimp only <;>
          · refine thinkerNotInTurn_of r _ h ?_ (fun id hid => ?_)
            · simp [clearTurnTimer, apply_ite Prod.fst, apply_ite Room.thinkerSocketId, ite_self]
            · simp only [apply_ite Prod.fst, apply_ite Room.turnOrder, startAskTimer_turnOrder,
                clearTurnTimer, ite_self] at hid
              exact List.mem_of_mem_filter hid
        · -- skipped-turn branch
          dsimp only [pushLog]
          split
          · refine thinkerNotInTurn_of r _ h ?_ (fun id hid => ?_)
            · simp [clearTurnTimer]
            · simpa [clearTurnTimer] using hid
          · split
            · refine thinkerNotInTurn_of r _ h ?_ (fun id hid => ?_)
              · simp [clearTurnTimer]
              · simpa [clearTurnTimer] using hid
            · refine thinkerNotInTurn_of r _ h ?_ (fun id hid => ?_)
              · simp [clearTurnTimer]
              · simpa [clearTurnTimer] using hid

theorem inv_advanceTurn_of (r : Room) (rm : Room) (h : thinkerNotInTurn r)
    (hto : rm.turnOrder = r.turnOrder) (hth : rm.thinkerSocketId = r.thinkerSocketId) :
    thinkerNotInTurn (advanceTurn rm).1 := by
  refine thinkerNotInTurn_of r _ h ?_ (fun id hid => ?_)
  · rw [advanceTurn_thinker, hth]
  · rw [advanceTurn_turnOrder, hto] at hid
    exact hid

theorem inv_clearTurnTimer_of (r : Room) (rm : Room) (h : thinkerNotInTurn r)
    (hto : rm.turnOrder = r.turnOrder) (hth : rm.thinkerSocketId = r.thinkerSocketId) :
    thinkerNotInTurn (clearTurnTimer rm) := by
  refine thinkerNotInTurn_of r _ h ?_ (fun id hid => ?_)
  · rw [show (clearTurnTimer rm).thinkerSocketId = rm.thinkerSocketId from rfl, hth]
  · exact hto ▸ (hid : id ∈ rm.turnOrder)

theorem inv_handleAnswerTimeout (r : Room) (tid : String) (qid : Nat)
    (h : thinkerNotInTurn r) :
    ∀ r', (handleAnswerTimeout r tid qid).1 = some r' → thinkerNotInTurn r' := by
  intro r' hr'
  unfold handleAnswerTimeout at hr'
  split at hr'
  · cases hr'
    exact h
  · dsimp only [pushLog] at hr'
    rcases hfind : r.questions.find? (fun x => x.id == qid) with _ | q
    · try rw [hfind] at hr'
      try dsimp only at hr'
      rcases hmg : mapGet r.players tid with _ | p <;>
        (try rw [hmg] at hr') <;> (try dsimp only at hr')
      · split at hr'
        · try dsimp only at hr'
          cases hr'
          exact inv_advanceTurn_of r _ h rfl rfl
        · try dsimp only [clearTurnTimer] at hr'
          cases hr'
          exact inv_clearTurnTimer_of r _ h rfl rfl
      · split at hr'
        · try dsimp only at hr'
          cases hr'
        · split at hr'
          · try dsimp only at hr'
            cases hr'
            exact inv_advanceTurn_of r _ h rfl rfl
          · try dsimp only [clearTurnTimer] at hr'
            cases hr'
            exact inv_clearTurnTimer_of r _ h rfl rfl
    · try rw [hfind] at hr'
      try dsimp only at hr'
      by_cases hans : jsTruthyStr q.answer = true <;>
        [rw [if_pos hans] at hr'; rw [if_neg hans] at hr'] <;> (try dsimp only at hr')
      all_goals
        rcases hmg : mapGet r.players tid with _ | p <;>
          (try rw [hmg] at hr') <;> (try dsimp only at hr')
        · split at hr'
          · try dsimp only at hr'
            cases hr'
            exact inv_advanceTurn_of r _ h rfl rfl
          · try dsimp only [clearTurnTimer] at hr'
            cases hr'
            exact inv_clearTurnTimer_of r _ h rfl rfl
        · split at hr'
          · try dsimp only at hr'
            cases hr'
          · split at hr'
            · try dsimp only at hr'
              cases hr'
              exact inv_advanceTurn_of r _ h rfl rfl
            · try dsimp only [clearTurnTimer] at hr'
              cases hr'
              exact inv_clearTurnTimer_of r _ h rfl rfl

set_option maxHeartbeats 1000000 in
theorem inv_guessSubmit (r : Room) (sid text : String) (h : thinkerNotInTurn r) :
    thinkerNotInTurn (guessSubmit r sid text).1 := by
  unfold guessSubmit
  split
  · exact h
  · dsimp only [pushLog, clearGuessTimerFor, startGuessTimer]
    repeat' split
    all_goals
      first
        | exact h
        | exact endRoundAndRotate_inv _ _ _
        | (dsimp only
           exact endRoundAndRotate_inv _ _ _)
        | (refine thinkerNotInTurn_of r _ h ?_ (fun id hid => ?_) <;>
            first
              | simp
              | (simp only [resetTimeouts_turnOrder, startGuessPhase_turnOrder,
                   advanceTurn_turnOrder] at hid
                 exact hid))

/-- C4 (amended): for a mid-round leave, removing a `turnOrder` index that
precedes `turnIdx` decrements `turnIdx` by 1 so it still points at the same
logical player, and removing the index at `turnIdx` passes the turn to the new
occupant of that index (wrapping to 0 if out of range) with a fresh ask timer;
expulsion by ask-timeout behaves the same way.  The disconnect path, however,
never decrements `turnIdx`: it removes the id from `turnOrder` and only resets
`turnIdx` to 0 when it falls out of range, so the turn can jump to a different
logical player. -/
theorem C4_removal_turn_adjustment :
    (∀ (r : Room) (sid : String) (idx : Nat),
      r.status = Status.playing → jsIndexOf r.turnOrder sid = some idx →
      idx < r.turnIdx → r.turnIdx < r.turnOrder.length →
      (handlePlayerExitDuringRound r sid).1.turnOrder = r.turnOrder.eraseIdx idx ∧
      (handlePlayerExitDuringRound r sid).1.turnIdx = r.turnIdx - 1) ∧
    (∀ (r : Room) (sid : String),
      r.status = Status.playing → jsIndexOf r.turnOrder sid = some r.turnIdx →
      (r.turnOrder.eraseIdx r.turnIdx).length ≠ 0 →
      (handlePlayerExitDuringRound r sid).1.turnOrder = r.turnOrder.eraseIdx r.turnIdx ∧
      (handlePlayerExitDuringRound r sid).1.turnIdx =
        (if r.turnIdx ≥ (r.turnOrder.eraseIdx r.turnIdx).length then 0 else r.turnIdx) ∧
      (handlePlayerExitDuringRound r sid).1.turnTimer =
        some (TimerSlot.ask ((r.turnOrder.eraseIdx r.turnIdx).getD
          (if r.turnIdx ≥ (r.turnOrder.eraseIdx r.turnIdx).length then 0 else r.turnIdx) "")) ∧
      Event.turnNow ((r.turnOrder.eraseIdx r.turnIdx).getD
          (if r.turnIdx ≥ (r.turnOrder.eraseIdx r.turnIdx).length then 0 else r.turnIdx) "")
        ∈ (handlePlayerExitDuringRound r sid).2) ∧
    (∀ (r : Room) (pid : String) (p : PlayerRecord),
      r.status = Status.playing → r.turnOrder.get? r.turnIdx = some pid →
      jsIndexOf r.turnOrder pid = some r.turnIdx → mapGet r.players pid = some p →
      p.timeouts + 1 ≥ 3 → (r.turnOrder.filter (fun id => id != pid)).length ≠ 0 →
      (handleAskTimeout r pid).1.turnOrder = r.turnOrder.filter (fun id => id != pid) ∧
      (handleAskTimeout r pid).1.turnIdx =
        (if r.turnIdx ≥ (r.turnOrder.filter (fun id => id != pid)).length then 0
         else r.turnIdx) ∧
      (handleAskTimeout r pid).1.turnTimer =
        some (TimerSlot.ask ((r.turnOrder.filter (fun id => id != pid)).getD
          (if r.turnIdx ≥ (r.turnOrder.filter (fun id => id != pid)).length then 0
           else r.turnIdx) ""))) ∧
    (∀ (r : Room) (sid : String) (p : PlayerRecord),
      mapGet r.players sid = some p → ¬ (r.thinkerSocketId = some sid) →
      ∀ r', (disconnectRoom r sid).1 = some r' →
        r'.turnOrder = r.turnOrder.filter (fun id => id != sid) ∧
        r'.turnIdx = (if r.turnIdx ≥ (r.turnOrder.filter (fun id => id != sid)).length
          then 0 else r.turnIdx)) :=
  ⟨playerExit_before_turnIdx, playerExit_at_turnIdx, askTimeout_expel_turn,
   disconnect_no_decrement⟩

/-- Witness for C4: `cy` (index 1) leaves `c4Room` while `turnIdx = 2`;
`turnIdx` is decremented to 1, still pointing at Di. -/
theorem C4_witness :
    (handlePlayerExitDuringRound c4Room "cy").1.turnOrder = c4Room.turnOrder.eraseIdx 1 ∧
    (handlePlayerExitDuringRound c4Room "cy").1.turnIdx = c4Room.turnIdx - 1 :=
  C4_removal_turn_adjustment.1 c4Room "cy" 1 (by decide) (by decide) (by decide) (by decide)

/-- The chat handler trivially preserves the invariant. -/
theorem inv_chatMessage (r : Room) (name text : String) (h : thinkerNotInTurn r) :
    thinkerNotInTurn (chatMessage r name text).1 :=
  thinkerNotInTurn_of r _ h rfl (fun id hid => hid)

/-- C6: the current Thinker's connection id is never an element of
`turnOrder`.  The invariant holds of a newly created room and is preserved by
every event handler and timer callback: join, leave, start-round, ask-question,
answer-question, submit-guess, chat, disconnect, and the ask-, answer- and
guess-timeout callbacks (for handlers that may destroy the room, the invariant
holds of the surviving room, if any). -/
theorem C6_thinker_not_in_turnOrder :
    (∀ code sid name, thinkerNotInTurn (roomCreateRoom code sid name).1) ∧
    (∀ r sid name, thinkerNotInTurn r → thinkerNotInTurn (roomJoin r sid name).1) ∧
    (∀ r sid, thinkerNotInTurn r →
      ∀ r', (roomLeave r sid).1 = some r' → thinkerNotInTurn r') ∧
    (∀ r sid w, thinkerNotInTurn r → thinkerNotInTurn (roundStart r sid w).1) ∧
    (∀ r sid t, thinkerNotInTurn r → thinkerNotInTurn (questionAsk r sid t).1) ∧
    (∀ r sid qid ans, thinkerNotInTurn r →
      thinkerNotInTurn (questionAnswer r sid qid ans).1) ∧
    (∀ r sid t, thinkerNotInTurn r → thinkerNotInTurn (guessSubmit r sid t).1) ∧
    (∀ r name t, thinkerNotInTurn r → thinkerNotInTurn (chatMessage r name t).1) ∧
    (∀ r sid, thinkerNotInTurn r →
      ∀ r', (disconnectRoom r sid).1 = some r' → thinkerNotInTurn r') ∧
    (∀ r pid, thinkerNotInTurn r → thinkerNotInTurn (handleAskTimeout r pid).1) ∧
    (∀ r tid qid, thinkerNotInTurn r →
      ∀ r', (handleAnswerTimeout r tid qid).1 = some r' → thinkerNotInTurn r') ∧
    (∀ r pid, thinkerNotInTurn r → thinkerNotInTurn (handleGuessTimeout r pid).1) :=
  ⟨inv_roomCreateRoom, inv_roomJoin, inv_roomLeave, inv_roundStart, inv_questionAsk,
   inv_questionAnswer, inv_guessSubmit, inv_chatMessage, inv_disconnectRoom,
   inv_handleAskTimeout,
   fun r tid qid h => inv_handleAnswerTimeout r tid qid h,
   inv_handleGuessTimeout⟩

/-- Witness for C6: `zed` joins the in-progress round and is appended to
`turnOrder`; the thinker `ana` is still not in it. -/
theorem C6_witness :
    thinkerNotInTurn (roomJoin playingRoom "zed" "Zed").1 :=
  C6_thinker_not_in_turnOrder.2.1 playingRoom "zed" "Zed"
    (by unfold thinkerNotInTurn; decide)

end TwentyQ
